import Mathlib

/-!
Verification of the AI-Image-to-story-telling repository.

Part 1 embeds the legacy frontend (`frontend/app.js`): the upload
validation in `handleFile`, the emotion-icon lookup `getEmotionIcon`,
and the story-rendering branch of `populateResults`.

Part 2 models the backend reconciliation-and-synthesis pipeline
(Object Consistency Resolver, Scene Classifier, Emotion Inferencer,
Prompt Builder, Post-processor, Fallback Template Engine, Orchestrator).
The backend sources are not part of the checked-in tree, so those
definitions are modelled from the specification and marked as such.
-/

/-- `s.startsWith(p)` of JavaScript, on the character-list model of strings. -/
def jsStartsWith (s p : String) : Bool := p.data.isPrefixOf s.data

/-- `s.toLowerCase()` of JavaScript (character-wise lowering). -/
def jsToLower (s : String) : String := ⟨s.data.map Char.toLower⟩

/-- Whitespace as removed by `String.prototype.trim`. -/
def isSpaceChar (c : Char) : Bool := c == ' ' || c == '\t' || c == '\n' || c == '\r'

/-- `s.trim()` of JavaScript: strip whitespace from both ends. -/
def jsTrim (s : String) : String :=
  ⟨((s.data.dropWhile isSpaceChar).reverse.dropWhile isSpaceChar).reverse⟩

/-- `array.join(sep)` of JavaScript. -/
def jsJoin (sep : String) : List String → String
  | [] => ""
  | x :: rest => rest.foldl (fun acc y => acc ++ sep ++ y) x

namespace Frontend

/-- A selected file as `handleFile` sees it: its MIME `type` string and
its `size` in bytes (`file.type`, `file.size` in the browser). -/
structure JSFile where
  fileType : String
  size : Nat
  deriving DecidableEq, Repr

/-- The observable UI effects of one `handleFile` call: which error message
was shown (if any), whether the preview was shown, whether the analyze
button was enabled, and whether previous results were cleared. -/
structure UIEffects where
  errorShown : Option String
  previewShown : Bool
  analyzeEnabled : Bool
  resultsCleared : Bool
  deriving DecidableEq, Repr

/-- `handleFile` from `frontend/app.js` (lines 75-96): rejects a file whose
MIME type does not start with `image/`, then a file larger than
10*1024*1024 bytes; otherwise shows the preview, enables the analyze
button and clears previous results. -/
def handleFile (file : JSFile) : UIEffects :=
  if ¬ jsStartsWith file.fileType "image/" then
    { errorShown := some "Please select an image file (JPEG, PNG, GIF, etc.)"
      previewShown := false, analyzeEnabled := false, resultsCleared := false }
  else if file.size > 10 * 1024 * 1024 then
    { errorShown := some "File size must be less than 10MB"
      previewShown := false, analyzeEnabled := false, resultsCleared := false }
  else
    { errorShown := none
      previewShown := true, analyzeEnabled := true, resultsCleared := true }

/-- The icon table of `getEmotionIcon` (`frontend/app.js` lines 440-453),
with the icon strings exactly as they appear in the source file. -/
def emotionIcons : List (String × String) :=
  [("happy", "üòä"), ("sad", "üò¢"), ("angry", "üò†"), ("surprised", "üòÆ"),
   ("fear", "üò®"), ("disgust", "ü§¢"), ("neutral", "üòê"), ("working", "üíº"),
   ("focused", "üéØ"), ("relaxed", "üòå"), ("excited", "üéâ"), ("peaceful", "üïäÔ∏è")]

/-- The neutral fallback icon returned by `getEmotionIcon` when the lookup
misses (`|| 'üòê'` in the source). -/
def neutralIcon : String := "üòê"

/-- What the `getEmotionIcon` expression can evaluate to: a string (an own
icon of the table, or the neutral fallback), or a truthy non-string value
that the bracket lookup finds on the `Object.prototype` chain. -/
inductive IconResult where
  | str (s : String)
  | protoObject (name : String)
  deriving DecidableEq, Repr

/-- The properties a plain object literal inherits from `Object.prototype`:
a bracket lookup with one of these keys returns the inherited function (or,
for `__proto__`, the prototype object itself) — all of them truthy. -/
def objectProtoProps : List String :=
  ["constructor", "__proto__", "hasOwnProperty", "isPrototypeOf",
   "propertyIsEnumerable", "toLocaleString", "toString", "valueOf",
   "__defineGetter__", "__defineSetter__", "__lookupGetter__", "__lookupSetter__"]

/-- `getEmotionIcon` from `frontend/app.js` (lines 439-456):
`emotionIcons[emotion?.toLowerCase()] || neutralIcon`. A `none` input models
the JavaScript `undefined`/`null` cases, which the optional chaining turns
into a missed lookup. The bracket lookup checks the object's own keys and
then the `Object.prototype` chain; every own icon and every inherited hit
is truthy, so `|| neutralIcon` fires only when both miss. -/
def getEmotionIcon (emotion : Option String) : IconResult :=
  match emotion with
  | none => .str neutralIcon
  | some s =>
    match emotionIcons.lookup (jsToLower s) with
    | some icon => .str icon
    | none =>
      if jsToLower s ∈ objectProtoProps then .protoObject (jsToLower s)
      else .str neutralIcon

/-- A JavaScript value as the `story` field of the parsed response may hold
it in `populateResults`: absent (`undefined`), `null`, a boolean, a number,
a string, or an array of strings (the backend sends the story as a list of
lines). -/
inductive JSVal where
  | undef
  | null
  | bool (b : Bool)
  | num (n : Int)
  | str (s : String)
  | arr (lines : List String)
  deriving DecidableEq, Repr

/-- JavaScript truthiness, as tested by `if (result.story)`:
`undefined`, `null`, `false`, `0` and `""` are falsy; every array is truthy. -/
def jsTruthy : JSVal → Bool
  | .undef => false
  | .null => false
  | .bool b => b
  | .num n => n != 0
  | .str s => s != ""
  | .arr _ => true

/-- `JSON.stringify` restricted to the `JSVal` type (only the boolean and
number cases are reachable from `populateResults`, which handles arrays and
strings before falling through to `JSON.stringify`). -/
def jsonStringify : JSVal → String
  | .undef => "undefined"
  | .null => "null"
  | .bool b => if b then "true" else "false"
  | .num n => toString n
  | .str s => "\"" ++ s ++ "\""
  | .arr lines => "[" ++ jsJoin "," (lines.map (fun l => "\"" ++ l ++ "\"")) ++ "]"

/-- The `storyText` computed inside `populateResults` for a truthy story:
an array is joined with single spaces (`result.story.join(' ')`), a string
is used as-is, anything else goes through `JSON.stringify`. -/
def storyTextOf : JSVal → String
  | .arr lines => jsJoin " " lines
  | .str s => s
  | v => jsonStringify v

/-- The story branch of `populateResults` (`frontend/app.js` lines 284-334),
returning the `innerHTML` assigned to the `story-result` element. -/
def populateStory (story : JSVal) : String :=
  if jsTruthy story then
    if 0 < (jsTrim (storyTextOf story)).length then
      "<p class=\"story-text\">" ++ storyTextOf story ++ "</p>"
    else
      "<p>No story generated (empty)</p>"
  else
    "<p>No story generated (undefined)</p>"

end Frontend

namespace Backend

/-- Modelled from the spec: a raw detection `{label, confidence}`. The
backend sources (`backend/vision_service.py` and friends) are not in the
checked-in tree, so this and everything below follows §3-§4 of the spec.
The confidence, a float in `[0,1]` in the spec, is represented in
hundredths (so `0.9` is `90`). -/
structure Detection where
  label : String
  confidence : Nat
  deriving DecidableEq, Repr

/-- Modelled from the spec: the confidence threshold of the Object
Consistency Resolver (default `0.5`, §4.1), in hundredths. -/
def confidenceThreshold : Nat := 50

/-- Modelled from the spec: the cap on the resolved object list (§4.1,
"cap the result at a maximum length (e.g. 12)"). -/
def maxObjects : Nat := 12

/-- Modelled from the spec: the `ContradictionRelation` (§3), a fixed
symmetric set of unordered label pairs considered mutually exclusive;
the spec names the example pair `{giraffe, rabbit}`. -/
def contradictionPairs : List (String × String) :=
  [("giraffe", "rabbit"), ("fish", "car"), ("snow", "beach")]

/-- One direction of the contradiction test: some stored pair is exactly
`(a, b)`. -/
def contradictsOriented (a b : String) : Bool :=
  contradictionPairs.any (fun p => p.1 == a && p.2 == b)

/-- Modelled from the spec: the symmetric contradiction test over the
unordered-pair table (§3, design note "Contradiction checking is
symmetric"). -/
def contradicts (a b : String) : Bool :=
  contradictsOriented a b || contradictsOriented b a

/-- Splits a character list into maximal runs of characters on which `p` is
false, dropping empty runs; the accumulator holds the current run reversed. -/
def splitOnPred (p : Char → Bool) : List Char → List Char → List String
  | [], cur => if cur.isEmpty then [] else [String.mk cur.reverse]
  | c :: rest, cur =>
    if p c then
      if cur.isEmpty then splitOnPred p rest []
      else String.mk cur.reverse :: splitOnPred p rest []
    else splitOnPred p rest (c :: cur)

/-- Modelled from the spec: caption tokenization — lowercase the caption and
split it into maximal alphanumeric runs (the spec speaks of "caption
tokens" without fixing a tokenizer). -/
def tokens (caption : String) : List String :=
  splitOnPred (fun c => !(c.isAlpha || c.isDigit)) (jsToLower caption).data []

/-- Modelled from the spec: the "fixed vocabulary of nouns" that caption
terms are matched against (§4.1); populated with the nouns the spec itself
mentions (scene-rule cue objects and the scenario objects). -/
def captionVocab : List String :=
  ["rabbit", "turtle", "giraffe", "tree", "ball", "toy", "laptop", "keyboard",
   "person", "desk", "dog", "cat", "bird", "flower", "book", "chair", "car",
   "fish", "snow", "beach"]

/-- Modelled from the spec (§4.1 step a): extract candidate terms from the
caption by matching tokens against the fixed vocabulary, preserving
first-appearance order and de-duplicating. -/
def captionTerms (caption : String) : List String :=
  (tokens caption).foldl
    (fun acc t => if t ∈ captionVocab ∧ t ∉ acc then acc ++ [t] else acc) []

/-- Modelled from the spec (§4.1 step c): a detection is accepted only at or
above the threshold, only if its label is not already present, and only if
its label is not in contradiction with any already-accepted label. -/
def acceptDetection (acc : List String) (d : Detection) : List String :=
  if confidenceThreshold ≤ d.confidence ∧ d.label ∉ acc ∧
      (∀ a ∈ acc, contradicts d.label a = false) then
    acc ++ [d.label]
  else acc

/-- Modelled from the spec (§4.1 step b): sort detections by descending
confidence. -/
def sortDetections (ds : List Detection) : List Detection :=
  ds.insertionSort (fun a b => b.confidence ≤ a.confidence)

/-- Modelled from the spec (§4.1): the Object Consistency Resolver — caption
terms first, then accepted detections in descending-confidence order,
capped at `maxObjects`. -/
def resolveObjects (caption : String) (detections : List Detection) : List String :=
  ((sortDetections detections).foldl acceptDetection (captionTerms caption)).take maxObjects

/-- The invariant of §8: no two labels of the list are related by the
contradiction relation. -/
def NoContra (l : List String) : Prop :=
  ∀ a ∈ l, ∀ b ∈ l, contradicts a b = false

instance (l : List String) : Decidable (NoContra l) := by
  unfold NoContra
  infer_instance

/-- Modelled from the spec (§4.2): one row of the ordered scene-rule table:
caption keywords, cue objects, the resulting scene type and its atmosphere
phrase. -/
structure SceneRule where
  keywords : List String
  cueObjects : List String
  sceneType : String
  atmosphere : String
  deriving DecidableEq, Repr

/-- Modelled from the spec (§4.2): the ordered rule table; declaration order
is the tie-break priority. The "multiple person detections → social" rule is
rendered as a person cue object plus social keywords, since the classifier
receives the de-duplicated resolved objects. Unmatched captions fall through
to `("general", neutral)`. -/
def sceneRules : List SceneRule :=
  [⟨["play", "playing", "game", "fun"], ["ball", "toy"],
    "playful", "A lively, playful energy fills the scene"⟩,
   ⟨["work", "working", "desk", "office", "study"], ["laptop", "keyboard"],
    "focused", "A quiet air of concentration hangs over the scene"⟩,
   ⟨["nature", "forest", "outdoors", "park", "garden"],
    ["tree", "rabbit", "turtle", "giraffe", "dog", "cat", "bird", "flower"],
    "nature", "The calm rhythm of the natural world surrounds everything"⟩,
   ⟨["friends", "people", "group", "crowd", "party"], ["person"],
    "social", "A warm, social atmosphere brings the scene together"⟩]

/-- A rule matches when one of its keywords occurs among the caption tokens
or one of its cue objects occurs among the resolved objects. -/
def ruleMatches (caption : String) (objects : List String) (r : SceneRule) : Bool :=
  r.keywords.any (fun k => (tokens caption).contains k) ||
    r.cueObjects.any (fun o => objects.contains o)

/-- Modelled from the spec (§4.2): the Scene Classifier — first matching
rule wins, otherwise `("general", neutral atmosphere)`. Returns the pair
`(sceneType, atmospherePhrase)`. -/
def classifyScene (caption : String) (objects : List String) : String × String :=
  match sceneRules.find? (ruleMatches caption objects) with
  | some r => (r.sceneType, r.atmosphere)
  | none => ("general", "A quiet, everyday moment")

/-- Modelled from the spec (§4.3): the keyword→emotion mapping scanned over
caption tokens. -/
def emotionKeywords : List (String × String) :=
  [("happy", "happy"), ("joy", "happy"), ("smiling", "happy"), ("laughing", "happy"),
   ("calm", "calm"), ("quiet", "calm"),
   ("focused", "focused"), ("working", "focused"), ("studying", "focused"),
   ("peaceful", "peaceful"), ("serene", "peaceful"),
   ("tense", "tense"), ("storm", "tense"), ("dark", "tense")]

/-- Modelled from the spec (§4.3): the default emotion associated with each
scene type; `general` has none, so it falls through to `neutral`. -/
def sceneDefaultEmotion : List (String × String) :=
  [("playful", "happy"), ("focused", "focused"),
   ("nature", "peaceful"), ("social", "happy")]

/-- The de-duplicated union of emotion-keyword hits over the caption tokens,
in first-hit order. -/
def emotionHits (caption : String) : List String :=
  (tokens caption).foldl
    (fun acc t =>
      match emotionKeywords.lookup t with
      | some e => if e ∈ acc then acc else acc ++ [e]
      | none => acc) []

/-- Modelled from the spec (§4.3): the Emotion Inferencer — union of caption
keyword hits; if none, the scene type default; if that is also absent,
`"neutral"`. -/
def inferEmotions (caption : String) (sceneType : String) : List String :=
  if emotionHits caption = [] then
    match sceneDefaultEmotion.lookup sceneType with
    | some e => [e]
    | none => ["neutral"]
  else emotionHits caption

/-- Modelled from the spec (§4.4): the configured maximum prompt length, in
characters. -/
def maxPromptChars : Nat := 300

/-- Modelled from the spec (§4.4): the deterministic prompt template
`Scene: {caption}. Objects: {comma-joined objects}. Emotion: {comma-joined
emotions}. {atmospherePhrase}. Write a short story about this scene:`. -/
def promptText (caption : String) (objects : List String)
    (emotions : List String) (atmosphere : String) : String :=
  "Scene: " ++ caption ++ ". Objects: " ++ jsJoin ", " objects ++
    ". Emotion: " ++ jsJoin ", " emotions ++ ". " ++ atmosphere ++
    ". Write a short story about this scene:"

/-- Truncation loop of the Prompt Builder on the reversed object list:
drop lowest-priority (last) objects until the prompt fits. -/
def fitObjectsRev (caption : String) (emotions : List String)
    (atmosphere : String) : List String → List String
  | [] => []
  | x :: xs =>
    if (promptText caption (x :: xs).reverse emotions atmosphere).length ≤ maxPromptChars then
      x :: xs
    else fitObjectsRev caption emotions atmosphere xs

/-- Modelled from the spec (§4.4): if the object list would push the prompt
past the maximum length, truncate the object list — keeping
highest-priority (earliest) entries — rather than the caption. -/
def fitObjects (caption : String) (objects : List String)
    (emotions : List String) (atmosphere : String) : List String :=
  (fitObjectsRev caption emotions atmosphere objects.reverse).reverse

/-- Modelled from the spec (§4.4): the Narrative Prompt Builder. -/
def buildPrompt (caption : String) (objects : List String)
    (emotions : List String) (atmosphere : String) : String :=
  promptText caption (fitObjects caption objects emotions atmosphere) emotions atmosphere

/-- Modelled from the spec (§4.6/§3): the narrative line-count bounds
(`NarrativeResult`: N within fixed bounds, "e.g. 3-8"). -/
def minLines : Nat := 3

/-- Upper narrative line-count bound. -/
def maxLines : Nat := 8

/-- Modelled from the spec (§4.6 step 3, heuristic default per §9): the
minimum character length below which a sentence is discarded. -/
def minSentenceChars : Nat := 10

/-- Modelled from the spec (§7/§4.6): the error raised by the Narrative
Post-processor when fewer than `minLines` sentences survive. -/
inductive QualityError where
  | tooFewLines
  deriving DecidableEq, Repr

/-- Modelled from the spec (§6/§7): the failure of the external Narrative
Generator Adapter. -/
inductive GenerationError where
  | timeout
  | resourceUnavailable
  deriving DecidableEq, Repr

/-- Modelled from the spec (§6/§7): the terminal failure of the external
Perception Adapter. -/
inductive PerceptionError where
  | decodeFailure
  | modelFailure
  deriving DecidableEq, Repr

/-- Sentence terminator characters for §4.6 step 2 ("split remaining text
into sentence-like units on terminal punctuation"). -/
def isSentenceEnd (c : Char) : Bool := c == '.' || c == '!' || c == '?'

/-- Modelled from the spec (§4.6 step 2): split text into sentence-like
units on terminal punctuation. -/
def splitSentences (s : String) : List String :=
  splitOnPred isSentenceEnd s.data []

/-- Case/whitespace normalization used for the near-duplicate test of §4.6
step 3. -/
def normalizeSentence (s : String) : String := jsToLower (jsTrim s)

/-- Modelled from the spec (§4.6 step 3): keep the trimmed sentences that
are long enough and not near-duplicates (normalized equality) of a
previously kept sentence. -/
def sentenceFilter (sentences : List String) : List String :=
  sentences.foldl
    (fun acc s =>
      let t := jsTrim s
      if minSentenceChars ≤ t.length ∧
          acc.all (fun k => normalizeSentence k != normalizeSentence t) then
        acc ++ [t]
      else acc) []

/-- Modelled from the spec (§4.6 step 1): strip an exact prompt-echo prefix
if the generator repeats the prompt. -/
def stripEcho (prompt raw : String) : String :=
  if jsStartsWith raw prompt then ⟨raw.data.drop prompt.data.length⟩ else raw

/-- Modelled from the spec (§4.6 step 4): after truncation, fewer than
`minLines` surviving lines raise the `QualityError`. -/
def clampLines (lines : List String) : Except QualityError (List String) :=
  if lines.length < minLines then .error .tooFewLines else .ok lines

/-- Modelled from the spec (§4.6): the Narrative Post-processor — strip an
exact prompt-echo prefix, split into sentences, filter, truncate to
`maxLines`, and raise `QualityError` when fewer than `minLines` survive. -/
def postprocess (prompt raw : String) : Except QualityError (List String) :=
  clampLines ((sentenceFilter (splitSentences (stripEcho prompt raw))).take maxLines)

/-- Modelled from the spec (§4.7): the Fallback Template Engine — keyed by
scene type, each entry a fixed multi-line template with placeholders filled
from the objects and the emotion, deterministic, with a line count inside
`[minLines, maxLines]`. -/
def fallbackStory (sceneType : String) (objects : List String)
    (emotion : String) : List String :=
  let subject := if objects.isEmpty then "the scene" else jsJoin ", " (objects.take 3)
  if sceneType = "playful" then
    ["A burst of laughter rises around " ++ subject ++ ".",
     "Every movement carries a " ++ emotion ++ " energy.",
     "The game goes on until the light begins to fade.",
     "What remains is the simple joy of play."]
  else if sceneType = "focused" then
    ["Quiet concentration settles over " ++ subject ++ ".",
     "Each small task is handled with " ++ emotion ++ " care.",
     "Time narrows down to the work at hand.",
     "By the end, steady effort has shaped something new."]
  else if sceneType = "nature" then
    ["The day unfolds slowly around " ++ subject ++ ".",
     "A " ++ emotion ++ " stillness rests on everything in view.",
     "Small sounds of the wild drift through the air.",
     "Nature carries on, patient and unhurried."]
  else if sceneType = "social" then
    ["Voices and smiles gather around " ++ subject ++ ".",
     "The mood of the gathering is unmistakably " ++ emotion ++ ".",
     "Stories are traded and small moments are shared.",
     "The gathering leaves a warm trace behind."]
  else
    ["An ordinary moment holds " ++ subject ++ " in place.",
     "A quietly " ++ emotion ++ " feeling colors the scene.",
     "Nothing dramatic happens, and nothing needs to.",
     "The scene rests, complete in itself."]

/-- Modelled from the spec (§3/§6): the final payload assembled by the
orchestrator. -/
structure AnalysisResult where
  caption : String
  objects : List String
  emotion : List String
  story : List String
  deriving DecidableEq, Repr

/-- The scene classification computed by the pipeline for a given caption
and detection list. -/
def sceneFor (caption : String) (detections : List Detection) : String × String :=
  classifyScene caption (resolveObjects caption detections)

/-- The emotion list computed by the pipeline. -/
def emotionsFor (caption : String) (detections : List Detection) : List String :=
  inferEmotions caption (sceneFor caption detections).1

/-- The prompt the pipeline hands to the Generator Adapter. -/
def promptFor (caption : String) (detections : List Detection) : String :=
  buildPrompt caption (resolveObjects caption detections)
    (emotionsFor caption detections) (sceneFor caption detections).2

/-- The fallback narrative the pipeline would use for this input, filled
from the computed scene type, objects and primary emotion. -/
def fallbackFor (caption : String) (detections : List Detection) : List String :=
  fallbackStory (sceneFor caption detections).1 (resolveObjects caption detections)
    ((emotionsFor caption detections).headD "neutral")

/-- Modelled from the spec (§4.8/§7): the story selection of the
orchestrator — on a `GenerationError` from the adapter, or a `QualityError`
from the post-processor, the Fallback Template Engine is invoked instead;
neither error escapes. -/
def storyFor (caption : String) (detections : List Detection)
    (gen : Except GenerationError String) : List String :=
  match gen with
  | .error _ => fallbackFor caption detections
  | .ok raw =>
    match postprocess (promptFor caption detections) raw with
    | .error _ => fallbackFor caption detections
    | .ok lines => lines

/-- Modelled from the spec (§4.8): the Pipeline Orchestrator. The external
Perception Adapter outcome is the `perception` argument; the external
Generator Adapter is the function `g` from prompts to generation
outcomes. A `PerceptionError` is propagated unchanged; otherwise a complete
`AnalysisResult` is assembled. -/
def runPipeline (perception : Except PerceptionError (String × List Detection))
    (g : String → Except GenerationError String) :
    Except PerceptionError AnalysisResult :=
  match perception with
  | .error e => .error e
  | .ok (caption, detections) =>
    .ok { caption := caption
          objects := resolveObjects caption detections
          emotion := emotionsFor caption detections
          story := storyFor caption detections (g (promptFor caption detections)) }

end Backend

namespace Backend

/-- The contradiction test is symmetric, as §3 requires of the unordered
pair relation. -/
theorem contradicts_symm (a b : String) : contradicts a b = contradicts b a := by
  rw [contradicts, contradicts, Bool.or_comm]

/-- No label contradicts itself: every stored pair has distinct components. -/
theorem contradicts_self (l : String) : contradicts l l = false := by
  have h : contradictsOriented l l = false := by
    rw [contradictsOriented, List.any_eq_false]
    intro p hp hcontra
    simp only [Bool.and_eq_true, beq_iff_eq] at hcontra
    have hne : p.1 ≠ p.2 := by
      simp only [contradictionPairs, List.mem_cons, List.not_mem_nil, or_false] at hp
      rcases hp with rfl | rfl | rfl <;> decide
    exact hne (hcontra.1.trans hcontra.2.symm)
  rw [contradicts, h, Bool.or_self]

/-- A fold step that either keeps the accumulator or appends one element not
already present preserves `Nodup`. -/
theorem foldl_step_nodup {α : Type} (f : List String → α → List String)
    (hf : ∀ acc x, f acc x = acc ∨ ∃ l, l ∉ acc ∧ f acc x = acc ++ [l]) :
    ∀ (xs : List α) (acc : List String), acc.Nodup → (xs.foldl f acc).Nodup := by
  intro xs
  induction xs with
  | nil => intro acc h; simpa using h
  | cons x xs ih =>
    intro acc h
    rw [List.foldl_cons]
    apply ih
    rcases hf acc x with heq | ⟨l, hl, heq⟩
    · rw [heq]; exact h
    · rw [heq]; simp [List.nodup_append, h, hl]

/-- Decomposition of a conditional-append fold: the result is the initial
accumulator followed by new entries, each the key of some processed item
that satisfied the acceptance property, and absent from the initial
accumulator. -/
theorem foldl_step_decomp {α : Type} (f : List String → α → List String)
    (key : α → String) (P : α → Prop)
    (hf : ∀ acc x, f acc x = acc ∨ (key x ∉ acc ∧ P x ∧ f acc x = acc ++ [key x])) :
    ∀ (xs : List α) (acc : List String),
      ∃ extra, xs.foldl f acc = acc ++ extra ∧
        List.Sublist extra (xs.map key) ∧
        ∀ l ∈ extra, l ∉ acc ∧ ∃ x ∈ xs, P x ∧ key x = l := by
  intro xs
  induction xs with
  | nil => intro acc; exact ⟨[], by simp, by simp, by simp⟩
  | cons x xs ih =>
    intro acc
    rw [List.foldl_cons]
    rcases hf acc x with heq | ⟨hnot, hP, heq⟩
    · rw [heq]
      rcases ih acc with ⟨extra, h1, h2, h3⟩
      refine ⟨extra, h1, h2.trans (List.sublist_cons_self _ _), ?_⟩
      intro l hl
      rcases h3 l hl with ⟨hna, y, hy, hPy, hk⟩
      exact ⟨hna, y, List.mem_cons_of_mem _ hy, hPy, hk⟩
    · rw [heq]
      rcases ih (acc ++ [key x]) with ⟨extra, h1, h2, h3⟩
      refine ⟨key x :: extra, ?_, ?_, ?_⟩
      · rw [h1, List.append_assoc]; rfl
      · simpa using h2.cons₂ (key x)
      · intro l hl
        rcases List.mem_cons.mp hl with rfl | hl
        · exact ⟨hnot, x, List.mem_cons_self _ _, hP, rfl⟩
        · rcases h3 l hl with ⟨hna, y, hy, hPy, hk⟩
          exact ⟨fun hmem => hna (List.mem_append_left _ hmem), y,
            List.mem_cons_of_mem _ hy, hPy, hk⟩

/-- The caption-term step either keeps the accumulator or appends a new
vocabulary token. -/
theorem captionStep_spec (acc : List String) (t : String) :
    (if t ∈ captionVocab ∧ t ∉ acc then acc ++ [t] else acc) = acc ∨
      (t ∉ acc ∧ t ∈ captionVocab ∧
        (if t ∈ captionVocab ∧ t ∉ acc then acc ++ [t] else acc) = acc ++ [t]) := by
  by_cases h : t ∈ captionVocab ∧ t ∉ acc
  · exact Or.inr ⟨h.2, h.1, if_pos h⟩
  · exact Or.inl (if_neg h)

/-- `acceptDetection` either keeps the accumulator or appends the new label
of a detection at or above the threshold. -/
theorem acceptDetection_spec (acc : List String) (d : Detection) :
    acceptDetection acc d = acc ∨
      (d.label ∉ acc ∧ confidenceThreshold ≤ d.confidence ∧
        acceptDetection acc d = acc ++ [d.label]) := by
  rw [acceptDetection]
  by_cases h : confidenceThreshold ≤ d.confidence ∧ d.label ∉ acc ∧
      ∀ a ∈ acc, contradicts d.label a = false
  · exact Or.inr ⟨h.2.1, h.1, if_pos h⟩
  · exact Or.inl (if_neg h)

/-- Caption terms are de-duplicated. -/
theorem captionTerms_nodup (caption : String) : (captionTerms caption).Nodup := by
  rw [captionTerms]
  refine foldl_step_nodup _ ?_ _ _ List.nodup_nil
  intro acc t
  rcases captionStep_spec acc t with h | ⟨h1, _, h3⟩
  · exact Or.inl h
  · exact Or.inr ⟨t, h1, h3⟩

/-- Caption terms are kept in caption order: they form a sublist of the
caption tokens, and each lies in the fixed vocabulary. -/
theorem captionTerms_sublist (caption : String) :
    List.Sublist (captionTerms caption) (tokens caption) ∧
      ∀ t ∈ captionTerms caption, t ∈ captionVocab := by
  rcases foldl_step_decomp _ id (· ∈ captionVocab)
      (fun acc t => captionStep_spec acc t) (tokens caption) [] with ⟨extra, h1, h2, h3⟩
  rw [captionTerms]
  rw [List.nil_append] at h1
  constructor
  · rw [h1]; simpa using h2
  · intro t ht
    rw [h1] at ht
    rcases h3 t ht with ⟨_, y, _, hy, rfl⟩
    exact hy

/-- The resolved object list never repeats a label. -/
theorem resolveObjects_nodup (caption : String) (detections : List Detection) :
    (resolveObjects caption detections).Nodup := by
  rw [resolveObjects]
  refine (List.take_sublist _ _).nodup ?_
  refine foldl_step_nodup _ ?_ _ _ (captionTerms_nodup caption)
  intro acc d
  rcases acceptDetection_spec acc d with h | ⟨h1, _, h3⟩
  · exact Or.inl h
  · exact Or.inr ⟨d.label, h1, h3⟩

/-- Structure of the resolved object list: the caption terms followed by
labels of detections, capped at `maxObjects`; every appended label is new
and comes from an at-or-above-threshold detection. -/
theorem resolveObjects_decomp (caption : String) (detections : List Detection) :
    ∃ extra, resolveObjects caption detections = (captionTerms caption ++ extra).take maxObjects ∧
      ∀ l ∈ extra, l ∉ captionTerms caption ∧
        ∃ d ∈ detections, confidenceThreshold ≤ d.confidence ∧ d.label = l := by
  rcases foldl_step_decomp acceptDetection Detection.label
      (fun d => confidenceThreshold ≤ d.confidence)
      (fun acc d => acceptDetection_spec acc d)
      (sortDetections detections) (captionTerms caption) with ⟨extra, h1, _, h3⟩
  refine ⟨extra, by rw [resolveObjects, h1], ?_⟩
  intro l hl
  rcases h3 l hl with ⟨hna, d, hd, hP, hk⟩
  rw [sortDetections] at hd
  exact ⟨hna, d, (List.perm_insertionSort _ _).subset hd, hP, hk⟩

/-- Accepting a detection preserves the no-contradiction invariant: the
label is admitted only after the explicit check against every
already-accepted label. -/
theorem noContra_acceptDetection {acc : List String} (h : NoContra acc) (d : Detection) :
    NoContra (acceptDetection acc d) := by
  rw [acceptDetection]
  split
  · rename_i hc
    intro a ha b hb
    rcases List.mem_append.mp ha with ha | ha <;> rcases List.mem_append.mp hb with hb | hb
    · exact h a ha b hb
    · rw [List.mem_singleton] at hb; subst hb
      rw [contradicts_symm]; exact hc.2.2 a ha
    · rw [List.mem_singleton] at ha; subst ha
      exact hc.2.2 b hb
    · rw [List.mem_singleton] at ha; rw [List.mem_singleton] at hb
      subst ha; subst hb
      exact contradicts_self _
  · exact h

/-- Folding `acceptDetection` over any detection list preserves the
no-contradiction invariant. -/
theorem noContra_foldl :
    ∀ (ds : List Detection) (acc : List String), NoContra acc →
      NoContra (ds.foldl acceptDetection acc)
  | [], _, h => h
  | d :: ds, _, h => noContra_foldl ds _ (noContra_acceptDetection h d)

/-- A prefix of a contradiction-free list is contradiction-free. -/
theorem noContra_take {l : List String} (h : NoContra l) (n : Nat) : NoContra (l.take n) :=
  fun a ha b hb => h a (List.mem_of_mem_take ha) b (List.mem_of_mem_take hb)

/-- Bounds of the fallback templates: every scene-type branch emits a fixed
number of lines inside `[minLines, maxLines]`. -/
theorem fallbackStory_length (st : String) (objects : List String) (em : String) :
    minLines ≤ (fallbackStory st objects em).length ∧
      (fallbackStory st objects em).length ≤ maxLines := by
  simp only [fallbackStory, minLines, maxLines]
  split_ifs <;> simp

/-- A successful `clampLines` outcome is the input list, of at least
`minLines` lines. -/
theorem clampLines_ok {x lines : List String} (h : clampLines x = .ok lines) :
    minLines ≤ lines.length ∧ x = lines := by
  rw [clampLines] at h
  split at h
  · simp at h
  · rename_i hlt
    injection h with h
    subst h
    exact ⟨Nat.le_of_not_lt hlt, rfl⟩

/-- Bounds of the post-processor: a successful result was truncated to
`maxLines`, and fewer than `minLines` lines would have raised the error. -/
theorem postprocess_ok_length {prompt raw : String} {lines : List String}
    (h : postprocess prompt raw = .ok lines) :
    minLines ≤ lines.length ∧ lines.length ≤ maxLines := by
  rw [postprocess] at h
  rcases clampLines_ok h with ⟨h1, h2⟩
  exact ⟨h1, h2 ▸ List.length_take_le _ _⟩

/-- Bounds of the selected story, for every generator outcome. -/
theorem storyFor_length (caption : String) (detections : List Detection)
    (gen : Except GenerationError String) :
    minLines ≤ (storyFor caption detections gen).length ∧
      (storyFor caption detections gen).length ≤ maxLines := by
  cases gen with
  | error e =>
    have h : storyFor caption detections (.error e) = fallbackFor caption detections := rfl
    rw [h, fallbackFor]
    exact fallbackStory_length _ _ _
  | ok raw =>
    cases hp : postprocess (promptFor caption detections) raw with
    | error qe =>
      have h : storyFor caption detections (.ok raw) = fallbackFor caption detections := by
        rw [storyFor, hp]
      rw [h, fallbackFor]
      exact fallbackStory_length _ _ _
    | ok lines =>
      have h : storyFor caption detections (.ok raw) = lines := by
        rw [storyFor, hp]
      rw [h]
      exact postprocess_ok_length hp

end Backend

namespace Backend

/-- C1 (counterexample): on the caption "a giraffe and a rabbit" with no
detections, the Object Consistency Resolver emits both members of the
contradiction pair (giraffe, rabbit): the §4.1 contradiction check guards
only detection labels, never caption-derived terms, so the resolved list
does contain two labels that form a contradiction pair. -/
theorem resolver_caption_contradiction_counterexample :
    resolveObjects "a giraffe and a rabbit" [] = ["giraffe", "rabbit"] ∧
    contradicts "giraffe" "rabbit" = true :=
  ⟨by decide, by decide⟩

/-- C1 (amended): detections never introduce a contradiction pair — whenever
the caption-derived terms are themselves free of contradiction pairs, the
entire resolved object list is, because a detection label is added only if
it is not in contradiction with any already-accepted label. -/
theorem resolveObjects_no_detection_contradiction (caption : String)
    (detections : List Detection) (h : NoContra (captionTerms caption)) :
    NoContra (resolveObjects caption detections) := by
  rw [resolveObjects]
  exact noContra_take (noContra_foldl _ _ h) _

/-- C1 witness: the §8 scenario — the giraffe detection is rejected against
the caption term rabbit, and the resolved list is contradiction-free. -/
theorem resolveObjects_no_detection_contradiction_witness :
    NoContra (resolveObjects "a rabbit and a turtle in a forest"
      [⟨"giraffe", 90⟩, ⟨"turtle", 80⟩, ⟨"tree", 70⟩]) :=
  resolveObjects_no_detection_contradiction _ _ (by decide)

/-- C2: the orchestrator either propagates the terminal `PerceptionError`
unchanged or returns a complete `AnalysisResult`; a `GenerationError` from
the adapter, or a `QualityError` from the post-processor, is recovered
locally by substituting the fallback narrative and never surfaces. -/
theorem runPipeline_complete_or_perception
    (p : Except PerceptionError (String × List Detection))
    (g : String → Except GenerationError String) :
    (∀ e, p = .error e → runPipeline p g = .error e) ∧
    (∀ caption detections, p = .ok (caption, detections) →
      ∃ r : AnalysisResult, runPipeline p g = .ok r) ∧
    (∀ caption detections err, p = .ok (caption, detections) →
      g (promptFor caption detections) = .error err →
      runPipeline p g = .ok { caption := caption
                              objects := resolveObjects caption detections
                              emotion := emotionsFor caption detections
                              story := fallbackFor caption detections }) ∧
    (∀ caption detections raw qe, p = .ok (caption, detections) →
      g (promptFor caption detections) = .ok raw →
      postprocess (promptFor caption detections) raw = .error qe →
      runPipeline p g = .ok { caption := caption
                              objects := resolveObjects caption detections
                              emotion := emotionsFor caption detections
                              story := fallbackFor caption detections }) := by
  refine ⟨?_, ?_, ?_, ?_⟩
  · intro e he
    subst he
    rfl
  · intro caption detections hp
    subst hp
    exact ⟨_, rfl⟩
  · intro caption detections err hp hg
    subst hp
    simp only [runPipeline, hg, storyFor]
  · intro caption detections raw qe hp hg hq
    subst hp
    simp only [runPipeline, hg, storyFor, hq]

/-- C2 witness: a perception failure is propagated, and a generator timeout
yields the complete fallback-backed result. -/
theorem runPipeline_complete_or_perception_witness :
    runPipeline (.error .decodeFailure) (fun _ => .ok "") = .error .decodeFailure ∧
    runPipeline (.ok ("", [])) (fun _ => .error .timeout) =
      .ok { caption := "", objects := resolveObjects "" [],
            emotion := emotionsFor "" [], story := fallbackFor "" [] } :=
  ⟨(runPipeline_complete_or_perception _ _).1 .decodeFailure rfl,
   (runPipeline_complete_or_perception _ _).2.2.1 "" [] .timeout rfl rfl⟩

/-- C3: the resolved object list is deduplicated; it is the caption-derived
terms followed by detection-derived labels (capped at `maxObjects`), so
every caption-derived entry precedes every detection-derived one; and the
caption terms are a duplicate-free sublist of the caption tokens, i.e. kept
in first-appearance order. -/
theorem resolveObjects_dedup_order (caption : String) (detections : List Detection) :
    (resolveObjects caption detections).Nodup ∧
    List.Sublist (captionTerms caption) (tokens caption) ∧
    (captionTerms caption).Nodup ∧
    ∃ extra, resolveObjects caption detections =
        (captionTerms caption ++ extra).take maxObjects ∧
      ∀ l ∈ extra, l ∉ captionTerms caption ∧ ∃ d ∈ detections, d.label = l := by
  refine ⟨resolveObjects_nodup _ _, (captionTerms_sublist caption).1,
    captionTerms_nodup _, ?_⟩
  rcases resolveObjects_decomp caption detections with ⟨extra, h1, h2⟩
  refine ⟨extra, h1, ?_⟩
  intro l hl
  rcases h2 l hl with ⟨hna, d, hd, _, hk⟩
  exact ⟨hna, d, hd, hk⟩

/-- C4: the emotion list is non-empty for every caption and scene type —
keyword hits are unioned; with no hit the scene default applies; with no
default the list is the singleton neutral. -/
theorem inferEmotions_nonempty (caption sceneType : String) :
    0 < (inferEmotions caption sceneType).length := by
  rw [inferEmotions]
  split
  · split <;> simp
  · rename_i h
    exact List.length_pos.mpr h

/-- C5: every `AnalysisResult` the pipeline returns carries a story whose
line count lies within `[minLines, maxLines]`, whether it came from
post-processed generation or from the fallback templates. -/
theorem runPipeline_story_bounds
    (p : Except PerceptionError (String × List Detection))
    (g : String → Except GenerationError String) (r : AnalysisResult)
    (h : runPipeline p g = .ok r) :
    minLines ≤ r.story.length ∧ r.story.length ≤ maxLines := by
  cases p with
  | error e => simp [runPipeline] at h
  | ok cd =>
    obtain ⟨caption, detections⟩ := cd
    simp only [runPipeline] at h
    injection h with h
    subst h
    exact storyFor_length _ _ _

/-- C5 witness: the empty-input run with a generator timeout returns a
story within bounds. -/
theorem runPipeline_story_bounds_witness :
    minLines ≤ (storyFor "" [] (.error .timeout)).length ∧
      (storyFor "" [] (.error .timeout)).length ≤ maxLines :=
  runPipeline_story_bounds (.ok ("", [])) (fun _ => .error .timeout)
    { caption := "", objects := resolveObjects "" [],
      emotion := emotionsFor "" [], story := storyFor "" [] (.error .timeout) } rfl

/-- C6: the Fallback Template Engine is deterministic — two invocations on
identical (sceneType, objects, emotion) inputs produce identical narrative
lines; it is a pure function with no source of randomness. -/
theorem fallbackStory_deterministic (s₁ s₂ : String) (o₁ o₂ : List String)
    (e₁ e₂ : String) (hs : s₁ = s₂) (ho : o₁ = o₂) (he : e₁ = e₂) :
    fallbackStory s₁ o₁ e₁ = fallbackStory s₂ o₂ e₂ := by
  rw [hs, ho, he]

/-- C6 witness: two identical nature-scene invocations agree. -/
theorem fallbackStory_deterministic_witness :
    fallbackStory "nature" ["tree"] "peaceful" =
      fallbackStory "nature" ["tree"] "peaceful" :=
  fallbackStory_deterministic "nature" "nature" ["tree"] ["tree"]
    "peaceful" "peaceful" rfl rfl rfl

/-- C7: empty caption and empty detections resolve to the empty object
list, and any detection sequence — duplicate labels included — contributes
at most one entry per label to the result. -/
theorem resolveObjects_empty_dedup :
    resolveObjects "" [] = [] ∧
    ∀ (caption : String) (detections : List Detection) (l : String),
      (resolveObjects caption detections).count l ≤ 1 := by
  refine ⟨by decide, ?_⟩
  intro caption detections l
  exact List.nodup_iff_count_le_one.mp (resolveObjects_nodup caption detections) l

end Backend

namespace Frontend

/-- C8: `handleFile` rejects a file whose MIME type does not start with
image/ or whose size exceeds 10*1024*1024 bytes: an error message is
shown, and the function returns without showing a preview, enabling the
analyze button, or clearing previous results. -/
theorem handleFile_rejects (file : JSFile)
    (h : jsStartsWith file.fileType "image/" = false ∨ 10 * 1024 * 1024 < file.size) :
    (handleFile file).errorShown.isSome = true ∧
    (handleFile file).previewShown = false ∧
    (handleFile file).analyzeEnabled = false ∧
    (handleFile file).resultsCleared = false := by
  by_cases hb : jsStartsWith file.fileType "image/" = true
  · rcases h with h | h
    · rw [hb] at h
      cases h
    · rw [handleFile, if_neg (by simp [hb]), if_pos h]
      exact ⟨rfl, rfl, rfl, rfl⟩
  · rw [handleFile, if_pos (by simpa using hb)]
    exact ⟨rfl, rfl, rfl, rfl⟩

/-- C8 witness: a text file and an oversized image are both rejected. -/
theorem handleFile_rejects_witness :
    ((handleFile ⟨"text/plain", 5⟩).errorShown.isSome = true ∧
      (handleFile ⟨"text/plain", 5⟩).previewShown = false ∧
      (handleFile ⟨"text/plain", 5⟩).analyzeEnabled = false ∧
      (handleFile ⟨"text/plain", 5⟩).resultsCleared = false) ∧
    ((handleFile ⟨"image/png", 10485761⟩).errorShown.isSome = true ∧
      (handleFile ⟨"image/png", 10485761⟩).previewShown = false ∧
      (handleFile ⟨"image/png", 10485761⟩).analyzeEnabled = false ∧
      (handleFile ⟨"image/png", 10485761⟩).resultsCleared = false) :=
  ⟨handleFile_rejects _ (Or.inl (by decide)),
   handleFile_rejects _ (Or.inr (by decide))⟩

/-- C9 (counterexample): the emotion string constructor is absent from the
fixed icon map, yet `getEmotionIcon` does not return the neutral icon (nor
any icon string): the bracket lookup finds `Object.prototype.constructor`
on the prototype chain, a truthy non-icon value that defeats the
neutral-icon fallback — case-insensitively, so Constructor hits it too. -/
theorem getEmotionIcon_proto_counterexample :
    getEmotionIcon (some "constructor") = .protoObject "constructor" ∧
    (getEmotionIcon (some "constructor") == .str neutralIcon) = false ∧
    getEmotionIcon (some "Constructor") = .protoObject "constructor" :=
  ⟨by decide, by decide, by decide⟩

/-- C9 (amended): `getEmotionIcon` never throws for missing or string
inputs: a missing emotion (undefined/null) yields the neutral icon, an
emotion in the icon table — matched case-insensitively — yields its icon,
and an unmapped emotion yields the neutral icon unless its lowercased form
names an `Object.prototype` property, in which case the inherited truthy
non-icon value is returned instead. -/
theorem getEmotionIcon_characterization :
    getEmotionIcon none = .str neutralIcon ∧
    (∀ s icon, emotionIcons.lookup (jsToLower s) = some icon →
      getEmotionIcon (some s) = .str icon) ∧
    (∀ s, emotionIcons.lookup (jsToLower s) = none →
      jsToLower s ∈ objectProtoProps →
      getEmotionIcon (some s) = .protoObject (jsToLower s)) ∧
    (∀ s, emotionIcons.lookup (jsToLower s) = none →
      jsToLower s ∉ objectProtoProps →
      getEmotionIcon (some s) = .str neutralIcon) := by
  refine ⟨rfl, ?_, ?_, ?_⟩
  · intro s icon h
    simp only [getEmotionIcon, h]
  · intro s h hp
    simp only [getEmotionIcon, h, if_pos hp]
  · intro s h hp
    simp only [getEmotionIcon, h, if_neg hp]

/-- C10 (counterexample): the story value false is neither null nor
missing, and the claim would have it JSON-stringified and rendered as the
non-blank text false; `populateResults` instead shows the placeholder,
because the code tests JavaScript truthiness, not presence. -/
theorem populateStory_falsy_counterexample :
    populateStory (.bool false) = "<p>No story generated (undefined)</p>" ∧
    jsonStringify (.bool false) = "false" ∧
    (jsTrim "false").length = 5 ∧
    (populateStory (.bool false) == "<p class=\"story-text\">false</p>") = false :=
  ⟨rfl, rfl, rfl, by decide⟩

/-- C10 (amended): for a truthy story value, an array is joined with single
spaces, a string is used as-is, and any other (truthy) value is
JSON-stringified; the rendered text appears when its trim is non-empty and
the (empty) placeholder otherwise; every falsy story — missing, null,
false, 0, or the empty string — yields the (undefined) placeholder. -/
theorem populateStory_characterization :
    (∀ v, jsTruthy v = false →
      populateStory v = "<p>No story generated (undefined)</p>") ∧
    (∀ v, jsTruthy v = true → 0 < (jsTrim (storyTextOf v)).length →
      populateStory v = "<p class=\"story-text\">" ++ storyTextOf v ++ "</p>") ∧
    (∀ v, jsTruthy v = true → (jsTrim (storyTextOf v)).length = 0 →
      populateStory v = "<p>No story generated (empty)</p>") ∧
    (∀ lines, storyTextOf (.arr lines) = jsJoin " " lines) ∧
    (∀ s, storyTextOf (.str s) = s) ∧
    (∀ b, storyTextOf (.bool b) = jsonStringify (.bool b)) ∧
    (∀ n, storyTextOf (.num n) = jsonStringify (.num n)) := by
  refine ⟨?_, ?_, ?_, fun _ => rfl, fun _ => rfl, fun _ => rfl, fun _ => rfl⟩
  · intro v hv
    rw [populateStory, if_neg (by simp [hv])]
  · intro v hv hl
    rw [populateStory, if_pos hv, if_pos hl]
  · intro v hv hl
    rw [populateStory, if_pos hv, if_neg (by simp [hl])]

end Frontend
